import Mathlib

/-!
Shallow embedding of the timer/notification synchronization core of the
taskmastervue client (TimerService, WebSocketService, notification store,
and the TasksView visibility handler), with theorems checking the
natural-language specification against it.

JavaScript `Map` objects are embedded as insertion-ordered association
lists with string keys; JS number fields are embedded as `Int` (with the
source's explicit `Math.max(0, _)` clamps kept); optional/possibly-`undefined`
fields are embedded as `Option`, and JS truthiness (`x || y`, `if (x)`) is
made explicit.
-/

/-! ## JS `Map` embedding -/

namespace JsMap

/-- `Map.prototype.set`: replace the value at an existing key in place,
otherwise append at the end (JS maps preserve insertion order). -/
def set : List (String × α) → String → α → List (String × α)
  | [], k, v => [(k, v)]
  | p :: rest, k, v => if p.1 == k then (k, v) :: rest else p :: set rest k v

/-- `Map.prototype.get`. -/
def get : List (String × α) → String → Option α
  | [], _ => none
  | p :: rest, k => if p.1 == k then some p.2 else get rest k

/-- `Map.prototype.has`. -/
def hasKey : List (String × α) → String → Bool
  | [], _ => false
  | p :: rest, k => p.1 == k || hasKey rest k

/-- `Map.prototype.delete`. -/
def erase (m : List (String × α)) (k : String) : List (String × α) :=
  m.filter (fun p => !(p.1 == k))

theorem get_set_self (m : List (String × α)) (k : String) (v : α) :
    get (set m k v) k = some v := by
  induction m with
  | nil => simp [set, get]
  | cons p rest ih =>
    by_cases h : p.1 == k
    · simp [set, get, h]
    · simp [set, get, h, ih]

theorem hasKey_set_self (m : List (String × α)) (k : String) (v : α) :
    hasKey (set m k v) k = true := by
  induction m with
  | nil => simp [set, hasKey]
  | cons p rest ih =>
    by_cases h : p.1 == k
    · simp [set, hasKey, h]
    · simp [set, hasKey, h, ih]

theorem get_of_hasKey_eq_false (m : List (String × α)) (k : String)
    (h : hasKey m k = false) : get m k = none := by
  induction m with
  | nil => simp [get]
  | cons p rest ih =>
    simp only [hasKey, Bool.or_eq_false_iff] at h
    simp [get, h.1, ih h.2]

end JsMap

/-! ## Timer data model (types/models.ts) -/

/-- Entry of `TimerService.activeTimers`: `{ remainingTimeMillis, timerActive }`. -/
structure TimerInfo where
  remainingTimeMillis : Int
  timerActive : Bool
deriving DecidableEq, Repr

/-- `TimerUpdateDto` — payload of a push message on a task's timer topic. -/
structure TimerUpdateDto where
  remainingTimeMillis : Int
  timerActive : Bool
deriving DecidableEq, Repr

/-- The timer-relevant fields of `TaskDto` (all optional in the source). -/
structure TaskDto where
  pomodoroTimeMillis : Option Int
  remainingTimeMillis : Option Int
  timerActive : Option Bool
deriving DecidableEq, Repr

/-- JS truthiness of a possibly-undefined number: `undefined` and `0` are falsy. -/
def jsTruthy : Option Int → Bool
  | some v => v != 0
  | none => false

/-- JS `a || b` for a possibly-undefined number `a` and a number `b`. -/
def jsOrElse (a : Option Int) (b : Int) : Int :=
  match a with
  | some v => if v = 0 then b else v
  | none => b

/-! ## Shared tick loop (TimerService.startBackgroundTimerInterval)

The `setInterval` body iterates all entries of `activeTimers` every 100 ms.
For one entry: when `timerActive && remainingTimeMillis > 0` it sets
`remainingTimeMillis = Math.max(0, remainingTimeMillis - 100)` and, when the
new value is `<= 0`, flips `timerActive` to `false` and fires
`taskService.pauseTimer(taskId)` without awaiting it. All other entries are
untouched. -/

/-- Effect of one tick-loop period on a single `activeTimers` entry. -/
def tickTimerInfo (t : TimerInfo) : TimerInfo :=
  if t.timerActive = true ∧ 0 < t.remainingTimeMillis then
    let r := max 0 (t.remainingTimeMillis - 100)
    if r ≤ 0 then { remainingTimeMillis := r, timerActive := false }
    else { remainingTimeMillis := r, timerActive := t.timerActive }
  else t

/-- Whether one tick-loop period issues `taskService.pauseTimer` for this entry
(the fire-and-forget call made when the decremented value reaches zero). -/
def tickPauseIssued (t : TimerInfo) : Bool :=
  decide (t.timerActive = true ∧ 0 < t.remainingTimeMillis ∧
    max 0 (t.remainingTimeMillis - 100) ≤ 0)

/-- One period of the shared tick loop over the whole `activeTimers` map. -/
def backgroundTick (m : List (String × TimerInfo)) : List (String × TimerInfo) :=
  m.map (fun p => (p.1, tickTimerInfo p.2))

/-- Task ids for which one tick-loop period issues a `pauseTimer` command. -/
def pauseCommands (m : List (String × TimerInfo)) : List String :=
  (m.filter (fun p => tickPauseIssued p.2)).map Prod.fst

/-! ## Per-task event interleaving (tick decrements vs. authoritative pushes)

`TimerService.subscribeToTaskTimer` installs a websocket handler that runs
`activeTimers.value.set(taskId, { remainingTimeMillis: u.remainingTimeMillis,
timerActive: u.timerActive })` for every push — it never reads the old entry. -/

/-- An event affecting one task's `activeTimers` entry: a tick-loop period or
a push message delivered on the task's timer topic. -/
inductive TimerEvent where
  | tick
  | push (u : TimerUpdateDto)
deriving DecidableEq, Repr

/-- Processing one event against the task's current `activeTimers` entry
(`none` when the map has no entry for the task yet). -/
def applyTimerEvent (t : Option TimerInfo) : TimerEvent → Option TimerInfo
  | TimerEvent.push u =>
      some { remainingTimeMillis := u.remainingTimeMillis, timerActive := u.timerActive }
  | TimerEvent.tick => t.map tickTimerInfo

/-- Processing a whole interleaving of ticks and pushes for one task. -/
def runTimerEvents (t : Option TimerInfo) (es : List TimerEvent) : Option TimerInfo :=
  es.foldl applyTimerEvent t

/-! ## TimerService commands (startTimer / pauseTimer / resetTimer /
updatePomodoroTime)

Each command awaits the matching `taskService` REST call; nothing is written
before the response. On success the source updates `activeTimers` from a mix
of response fields and local fallbacks; only `startTimer` then calls
`subscribeToTaskTimer`. The collaborator outcome is passed in as an
`Except`. -/

/-- TimerService state relevant to the commands: the `activeTimers` map and
the key set of the `timerSubscriptions` cache. -/
structure TimerServiceState where
  activeTimers : List (String × TimerInfo)
  timerSubKeys : List String
deriving DecidableEq, Repr

/-- `TimerService.getTaskRemainingTime`: `timerInfo ? remainingTimeMillis : 0`. -/
def getTaskRemainingTime (s : TimerServiceState) (taskId : String) : Int :=
  match JsMap.get s.activeTimers taskId with
  | some t => t.remainingTimeMillis
  | none => 0

/-- Effect of `TimerService.subscribeToTaskTimer` on the key set of the
`timerSubscriptions` cache: a key is added only when not already present. -/
def tsSubscribeKey (keys : List String) (taskId : String) : List String :=
  if keys.contains taskId then keys else keys ++ [taskId]

/-- Success path of `TimerService.startTimer`: if `updatedTask.pomodoroTimeMillis`
is truthy, set `{ remainingTimeMillis: updatedTask.remainingTimeMillis ||
updatedTask.pomodoroTimeMillis, timerActive: true }`; then always subscribe. -/
def startTimerApply (s : TimerServiceState) (taskId : String) (task : TaskDto) :
    TimerServiceState :=
  let entry : TimerInfo :=
    { remainingTimeMillis :=
        jsOrElse task.remainingTimeMillis (task.pomodoroTimeMillis.getD 0),
      timerActive := true }
  let s1 :=
    if jsTruthy task.pomodoroTimeMillis then
      { s with activeTimers := JsMap.set s.activeTimers taskId entry }
    else s
  { s1 with timerSubKeys := tsSubscribeKey s1.timerSubKeys taskId }

/-- Success path of `TimerService.pauseTimer`: if `pomodoroTimeMillis` is truthy,
set `{ remainingTimeMillis: updatedTask.remainingTimeMillis ||
this.getTaskRemainingTime(taskId), timerActive: false }`; no subscribe call. -/
def pauseTimerApply (s : TimerServiceState) (taskId : String) (task : TaskDto) :
    TimerServiceState :=
  let entry : TimerInfo :=
    { remainingTimeMillis :=
        jsOrElse task.remainingTimeMillis (getTaskRemainingTime s taskId),
      timerActive := false }
  if jsTruthy task.pomodoroTimeMillis then
    { s with activeTimers := JsMap.set s.activeTimers taskId entry }
  else s

/-- Success path of `TimerService.resetTimer`: if `pomodoroTimeMillis` is truthy,
set `{ remainingTimeMillis: updatedTask.pomodoroTimeMillis, timerActive:
false }`; no subscribe call. -/
def resetTimerApply (s : TimerServiceState) (taskId : String) (task : TaskDto) :
    TimerServiceState :=
  let entry : TimerInfo :=
    { remainingTimeMillis := task.pomodoroTimeMillis.getD 0, timerActive := false }
  if jsTruthy task.pomodoroTimeMillis then
    { s with activeTimers := JsMap.set s.activeTimers taskId entry }
  else s

/-- The locally computed duration of `TimerService.updatePomodoroTime`:
`Math.max(0, Math.min(60, minutes)) * 60 * 1000`. -/
def pomodoroMillis (minutes : Int) : Int :=
  max 0 (min 60 minutes) * 60 * 1000

/-- Success path of `TimerService.updatePomodoroTime`: the map is updated with
the locally computed `millis`, not with anything from the response. -/
def updatePomodoroTimeApply (s : TimerServiceState) (taskId : String)
    (minutes : Int) : TimerServiceState :=
  let entry : TimerInfo :=
    { remainingTimeMillis := pomodoroMillis minutes, timerActive := false }
  { s with activeTimers := JsMap.set s.activeTimers taskId entry }

/-- `TimerService.startTimer` with the collaborator outcome made explicit:
a rejection propagates before any local write. -/
def startTimerCmd (s : TimerServiceState) (taskId : String)
    (result : Except String TaskDto) : Except String TaskDto × TimerServiceState :=
  match result with
  | Except.error e => (Except.error e, s)
  | Except.ok task => (Except.ok task, startTimerApply s taskId task)

/-- `TimerService.pauseTimer` with the collaborator outcome made explicit. -/
def pauseTimerCmd (s : TimerServiceState) (taskId : String)
    (result : Except String TaskDto) : Except String TaskDto × TimerServiceState :=
  match result with
  | Except.error e => (Except.error e, s)
  | Except.ok task => (Except.ok task, pauseTimerApply s taskId task)

/-- `TimerService.resetTimer` with the collaborator outcome made explicit. -/
def resetTimerCmd (s : TimerServiceState) (taskId : String)
    (result : Except String TaskDto) : Except String TaskDto × TimerServiceState :=
  match result with
  | Except.error e => (Except.error e, s)
  | Except.ok task => (Except.ok task, resetTimerApply s taskId task)

/-! ## WebSocketService (websocket.service.ts)

The STOMP client's wire subscriptions are embedded as a topic-keyed map to the
STOMP subscription id together with the id of the single callback attached
when the wire subscription was created (`stompClient.subscribe(topic, cb)`
attaches exactly the callback of that call). The absent-or-disconnected STOMP
client is collapsed into `connected = false`. -/

/-- A wire-level STOMP subscription: its id and the attached callback's id. -/
structure WireSub where
  subId : Nat
  cbId : Nat
deriving DecidableEq, Repr

/-- The handle object returned by `WebSocketService.subscribeToTaskTimer`:
either the dummy (`{ unsubscribe: () => {} }` logged no-op) returned while
disconnected, or the real `unsubscribeObj` closing over a task id and the
STOMP subscription it tears down. -/
inductive Handle where
  | dummy
  | real (taskId : String) (subId : Nat)
deriving DecidableEq, Repr

/-- WebSocketService state. -/
structure WsState where
  connected : Bool
  nextSubId : Nat
  wireSubs : List (String × WireSub)
  activeTimerSubscriptions : List (String × Handle)
  pendingNotificationSub : Bool
  reconnectAttempts : Nat
deriving DecidableEq, Repr

/-- Topic of a task's timer channel: `/topic/task/${taskId}/timer`. -/
def taskTimerTopic (taskId : String) : String :=
  "/topic/task/" ++ taskId ++ "/timer"

/-- The per-user notification topic: `/user/queue/notifications`. -/
def notificationTopic : String :=
  "/user/queue/notifications"

/-- `WebSocketService.subscribeToTaskTimer(taskId, callback)`. Disconnected:
returns the dummy handle and changes nothing. Already subscribed: returns the
stored handle unchanged (the new callback is dropped). Otherwise opens one
wire subscription carrying this call's callback and stores the new handle. -/
def wsSubscribeToTaskTimer (s : WsState) (taskId : String) (cbId : Nat) :
    Handle × WsState :=
  if s.connected = false then
    (Handle.dummy, s)
  else if JsMap.hasKey s.activeTimerSubscriptions taskId then
    ((JsMap.get s.activeTimerSubscriptions taskId).getD Handle.dummy, s)
  else
    let sid := s.nextSubId
    let h := Handle.real taskId sid
    (h, { s with
            nextSubId := sid + 1,
            wireSubs := JsMap.set s.wireSubs (taskTimerTopic taskId)
              { subId := sid, cbId := cbId },
            activeTimerSubscriptions :=
              JsMap.set s.activeTimerSubscriptions taskId h })

/-- Calling `unsubscribe()` on a handle: the dummy logs and does nothing; the
real one tears down its STOMP subscription and deletes the task's entry from
`activeTimerSubscriptions`. -/
def wsUnsubscribeHandle (s : WsState) (h : Handle) : WsState :=
  match h with
  | Handle.dummy => s
  | Handle.real taskId sid =>
      { s with
          wireSubs := s.wireSubs.filter (fun p => !(p.2.subId == sid)),
          activeTimerSubscriptions :=
            JsMap.erase s.activeTimerSubscriptions taskId }

/-- Which callback a message on a task's timer topic is delivered to: the one
attached to the topic's wire subscription, if it exists. -/
def wsDeliverTimer (s : WsState) (taskId : String) : Option Nat :=
  (JsMap.get s.wireSubs (taskTimerTopic taskId)).map WireSub.cbId

/-- `WebSocketService.subscribeToNotifications()`. Disconnected: only sets the
pending flag. Connected: opens a wire subscription on the notification topic
(callback id 0 stands for the store-backed message handler). Returns the
topics for which an underlying subscribe call was issued. -/
def wsSubscribeToNotifications (s : WsState) : WsState × List String :=
  if s.connected = false then
    ({ s with pendingNotificationSub := true }, [])
  else
    ({ s with
         nextSubId := s.nextSubId + 1,
         wireSubs := JsMap.set s.wireSubs notificationTopic
           { subId := s.nextSubId, cbId := 0 } },
     [notificationTopic])

/-- `WebSocketService.handleConnect`: marks connected, resets the attempt
counter and, when a notification subscription is pending, clears the flag and
runs `subscribeToNotifications()`. Nothing else is resubscribed. Returns the
topics for which an underlying subscribe call was issued. -/
def handleConnect (s : WsState) : WsState × List String :=
  let s1 := { s with connected := true, reconnectAttempts := 0 }
  if s1.pendingNotificationSub then
    wsSubscribeToNotifications { s1 with pendingNotificationSub := false }
  else
    (s1, [])

/-- `WebSocketService.attemptReconnect` acting on the attempt counter: at the
cap it only logs and gives up (no event is emitted); otherwise it increments
the counter and schedules `connect()` after
`Math.min(1000 * Math.pow(2, reconnectAttempts), 30000)` ms. -/
def attemptReconnect (attempts : Nat) : Option (Nat × Int) :=
  if attempts ≥ 5 then none
  else some (attempts + 1, min (1000 * 2 ^ (attempts + 1)) 30000)

/-- `WebSocketService.handleWebSocketClose(event)`: marks disconnected, emits
the `connection {connected:false}` event, and on a non-1000 close code runs
`attemptReconnect`. Returns the new state, the emitted event names, and the
scheduled retry delay if one was scheduled. -/
def handleWebSocketClose (s : WsState) (code : Nat) :
    WsState × List String × Option Int :=
  let s1 := { s with connected := false }
  if code ≠ 1000 then
    match attemptReconnect s1.reconnectAttempts with
    | none => (s1, ["connection"], none)
    | some (a, d) => ({ s1 with reconnectAttempts := a }, ["connection"], some d)
  else
    (s1, ["connection"], none)

/-! ## TimerService.subscribeToTaskTimer over the combined state (for the
interaction between the TimerService cache and the WebSocketService). -/

/-- Combined state: the WebSocketService and the TimerService's
`timerSubscriptions` handle cache. -/
structure AppState where
  ws : WsState
  tsSubs : List (String × Handle)
deriving DecidableEq, Repr

/-- `TimerService.subscribeToTaskTimer(taskId)`: returns the cached handle if
one exists; otherwise asks the WebSocketService to subscribe and caches
whatever handle comes back (the dummy included). -/
def timerServiceSubscribe (a : AppState) (taskId : String) (cbId : Nat) :
    Handle × AppState :=
  if JsMap.hasKey a.tsSubs taskId then
    ((JsMap.get a.tsSubs taskId).getD Handle.dummy, a)
  else
    let r := wsSubscribeToTaskTimer a.ws taskId cbId
    (r.1, { ws := r.2, tsSubs := JsMap.set a.tsSubs taskId r.1 })

/-! ## TasksView visibility handling (handleVisibilityChange / fetchTasks) -/

/-- What `fetchTasks` / the visibility handler end up doing. -/
inductive ResyncAction where
  /-- `taskStore.fetchAllTasks` or `fetchSharedTasks` is awaited and
  `timerService.initializeTimers` runs on the fetched tasks. -/
  | fetchFromServer
  /-- only `timerService.reconnectToActiveTimers()` runs; no REST call. -/
  | reconnectTimers
deriving DecidableEq, Repr

/-- `fetchTasks`: when the task store already holds tasks it only reconnects
to active timers; only an empty store triggers the collaborator fetch. -/
def fetchTasksAction (hasExistingTasks : Bool) : ResyncAction :=
  if hasExistingTasks then ResyncAction.reconnectTimers
  else ResyncAction.fetchFromServer

/-- `handleVisibilityChange` on becoming visible: if the document was hidden
(`documentHiddenTime` truthy) for more than 30000 ms, run `fetchTasks()`;
otherwise run `reconnectToActiveTimers()`. -/
def handleVisibilityChange (documentHiddenTime : Option Int) (now : Int)
    (hasExistingTasks : Bool) : ResyncAction :=
  match documentHiddenTime with
  | some t =>
      if t ≠ 0 ∧ now - t > 30000 then fetchTasksAction hasExistingTasks
      else ResyncAction.reconnectTimers
  | none => ResyncAction.reconnectTimers

/-! ## Notification store (notification.store.ts) -/

/-- A notification record as held in the store (fields irrelevant to the
read/unread bookkeeping are kept as plain strings). -/
structure NotificationRec where
  id : String
  kind : String
  message : String
  read : Bool
  createdAt : String
deriving DecidableEq, Repr

/-- `handleNewNotification`: if a record with the same id exists the feed is
unchanged, otherwise the record is prepended
(`this.notifications = [notificationObj, ...this.notifications]`). -/
def handleNewNotification (ns : List NotificationRec) (n : NotificationRec) :
    List NotificationRec :=
  if ns.any (fun m => m.id == n.id) then ns else n :: ns

/-- Success path of `markAsRead(notificationId)`: `findIndex` locates the
first record with the id and it is replaced by a copy with `read: true`;
`-1` (no match) leaves the feed unchanged. -/
def markAsReadApply : List NotificationRec → String → List NotificationRec
  | [], _ => []
  | n :: rest, i =>
      if n.id == i then { n with read := true } :: rest
      else n :: markAsReadApply rest i

/-- Success path of `markAllAsRead()`: every record is replaced by a copy
with `read: true`. -/
def markAllAsReadApply (ns : List NotificationRec) : List NotificationRec :=
  ns.map (fun n => { n with read := true })

/-- The `unreadCount` getter:
`state.notifications.filter(n => !n.read).length`. -/
def unreadCount (ns : List NotificationRec) : Nat :=
  (ns.filter (fun n => !n.read)).length

/-- The count of feed records whose `read` field is `false`, as the spec
words it. -/
def countUnread (ns : List NotificationRec) : Nat :=
  ns.countP (fun n => n.read == false)

/-! ## Helper lemmas -/

theorem JsMap.get_map_snd (f : α → β) (m : List (String × α)) (k : String) :
    JsMap.get (m.map (fun p => (p.1, f p.2))) k = (JsMap.get m k).map f := by
  induction m with
  | nil => simp [JsMap.get]
  | cons p rest ih =>
    by_cases h : p.1 == k
    · simp [JsMap.get, h]
    · simp [JsMap.get, h, ih]

theorem JsMap.mem_of_get_eq_some (m : List (String × α)) (k : String) (v : α)
    (h : JsMap.get m k = some v) : (k, v) ∈ m := by
  induction m with
  | nil => simp [JsMap.get] at h
  | cons p rest ih =>
    by_cases hk : p.1 == k
    · simp only [JsMap.get, hk, if_pos, Option.some.injEq] at h
      have hk' : p.1 = k := eq_of_beq hk
      cases p with
      | mk a b =>
        simp only at hk' h
        subst hk'
        subst h
        exact List.mem_cons_self _ _
    · simp only [JsMap.get, hk, if_neg, Bool.false_eq_true] at h
      exact List.mem_cons_of_mem _ (ih h)

/-! ## Claim theorems -/

/-- Claim C1, counterexample: with the interleaving
`[push {1000, active}, tick]` the handler first stores the pushed value 1000
and the subsequent tick-loop period then decrements it to 900, so after all
events the stored `remainingTimeMillis` is not the value of the most recently
processed push even though a push has been received. -/
theorem tick_after_push_changes_stored_value :
    runTimerEvents none
        [TimerEvent.push { remainingTimeMillis := 1000, timerActive := true },
         TimerEvent.tick]
      = some { remainingTimeMillis := 900, timerActive := true } ∧
    runTimerEvents none
        [TimerEvent.push { remainingTimeMillis := 1000, timerActive := true },
         TimerEvent.tick]
      ≠ some { remainingTimeMillis := 1000, timerActive := true } := by
  constructor
  · decide
  · decide

/-- Claim C1 (amended): processing a push unconditionally replaces the task's
local TimerState with the pushed `remainingTimeMillis`/`timerActive`, whatever
the local prediction was; consequently, for every interleaving, the stored
state right after processing a push — in particular whenever the push is the
most recent event processed — is exactly the pushed one. (Ticks processed
after the last push may decrement the stored value further while the pushed
state was active, which is why the unamended claim fails.) -/
theorem push_unconditionally_overwrites_timer_state :
    (∀ (t : Option TimerInfo) (u : TimerUpdateDto),
        applyTimerEvent t (TimerEvent.push u)
          = some { remainingTimeMillis := u.remainingTimeMillis,
                   timerActive := u.timerActive }) ∧
    (∀ (t : Option TimerInfo) (pre : List TimerEvent) (u : TimerUpdateDto),
        runTimerEvents t (pre ++ [TimerEvent.push u])
          = some { remainingTimeMillis := u.remainingTimeMillis,
                   timerActive := u.timerActive }) := by
  refine ⟨fun t u => rfl, fun t pre u => ?_⟩
  unfold runTimerEvents
  rw [List.foldl_append]
  rfl

/-- Claim C2: over one period of the shared tick loop, every entry of the
timer map is decremented by 100 only when `timerActive` and positive, the
result is clamped at zero, entries not in Running state are untouched, and an
entry reaching zero is flipped inactive with a `pauseTimer` command issued
for its task. -/
theorem tick_loop_decrements_only_running_clamped
    (m : List (String × TimerInfo)) (k : String) (t : TimerInfo)
    (hget : JsMap.get m k = some t) :
    JsMap.get (backgroundTick m) k = some (tickTimerInfo t) ∧
    (¬ (t.timerActive = true ∧ 0 < t.remainingTimeMillis) →
        tickTimerInfo t = t ∧ tickPauseIssued t = false) ∧
    (t.timerActive = true → 0 < t.remainingTimeMillis →
        (tickTimerInfo t).remainingTimeMillis = max 0 (t.remainingTimeMillis - 100) ∧
        0 ≤ (tickTimerInfo t).remainingTimeMillis ∧
        ((tickTimerInfo t).remainingTimeMillis = 0 →
            (tickTimerInfo t).timerActive = false ∧ k ∈ pauseCommands m)) := by
  refine ⟨?_, ?_, ?_⟩
  · unfold backgroundTick
    rw [JsMap.get_map_snd, hget]
    rfl
  · intro h
    constructor
    · unfold tickTimerInfo
      rw [if_neg h]
    · unfold tickPauseIssued
      rw [decide_eq_false_iff_not]
      rintro ⟨h1, h2, -⟩
      exact h ⟨h1, h2⟩
  · intro ha hr
    have hmem : (k, t) ∈ m := JsMap.mem_of_get_eq_some m k t hget
    unfold tickTimerInfo
    rw [if_pos ⟨ha, hr⟩]
    by_cases hz : max 0 (t.remainingTimeMillis - 100) ≤ 0
    · rw [if_pos hz]
      refine ⟨rfl, le_max_left 0 _, fun _ => ⟨rfl, ?_⟩⟩
      have hp : tickPauseIssued t = true := by
        unfold tickPauseIssued
        exact decide_eq_true ⟨ha, hr, hz⟩
      unfold pauseCommands
      exact List.mem_map_of_mem Prod.fst (List.mem_filter.mpr ⟨hmem, hp⟩)
    · rw [if_neg hz]
      refine ⟨rfl, le_max_left 0 _, fun h0 => absurd (le_of_eq h0) hz⟩

/-- Claim C2, witness instantiating the tick-loop theorem on a one-entry map
holding an active timer with 50 ms left. -/
theorem tick_loop_decrements_only_running_clamped_witness :
    JsMap.get (backgroundTick
        [("a", ({ remainingTimeMillis := 50, timerActive := true } : TimerInfo))]) "a"
      = some (tickTimerInfo { remainingTimeMillis := 50, timerActive := true }) :=
  (tick_loop_decrements_only_running_clamped
    [("a", { remainingTimeMillis := 50, timerActive := true })] "a"
    { remainingTimeMillis := 50, timerActive := true } (by decide)).1

/-- Claim C3, counterexample: a successful `startTimer` whose response carries
`remainingTimeMillis = 0` and `timerActive = false` (with
`pomodoroTimeMillis = 1500000`) stores `{ remainingTimeMillis: 1500000,
timerActive: true }` — the `||` fallback replaces the returned remaining time
and `timerActive` is hardcoded to `true` — so the returned TimerState is not
applied exactly as returned. -/
theorem start_timer_not_applied_exactly_as_returned :
    JsMap.get (startTimerApply { activeTimers := [], timerSubKeys := [] } "t1"
        { pomodoroTimeMillis := some 1500000, remainingTimeMillis := some 0,
          timerActive := some false }).activeTimers "t1"
      = some { remainingTimeMillis := 1500000, timerActive := true } ∧
    some ({ remainingTimeMillis := 1500000, timerActive := true } : TimerInfo)
      ≠ some ({ remainingTimeMillis := 0, timerActive := false } : TimerInfo) := by
  exact ⟨by decide, by decide⟩

/-- Claim C3 (amended): on success, each command updates the local TimerState
only after the response, but from a mix of response and local values: `start`
stores the returned remaining time with fallback to `pomodoroTimeMillis` when
falsy and hardcodes `timerActive: true`, then subscribes the task's timer
topic if not already subscribed; `pause` stores the returned remaining time
with fallback to the locally held value and hardcodes `timerActive: false`;
`reset` stores `pomodoroTimeMillis`; `setDuration` stores the locally
computed clamped duration; none of `pause`/`reset`/`setDuration` touches the
subscription cache. (All assuming a truthy `pomodoroTimeMillis`, otherwise
the timer map is untouched.) -/
theorem timer_commands_apply_mixed_local_and_server_values
    (s : TimerServiceState) (taskId : String) (task : TaskDto) (minutes : Int)
    (hp : jsTruthy task.pomodoroTimeMillis = true) :
    (JsMap.get (startTimerApply s taskId task).activeTimers taskId
        = some { remainingTimeMillis :=
                   jsOrElse task.remainingTimeMillis (task.pomodoroTimeMillis.getD 0),
                 timerActive := true } ∧
     (startTimerApply s taskId task).timerSubKeys
        = tsSubscribeKey s.timerSubKeys taskId) ∧
    (JsMap.get (pauseTimerApply s taskId task).activeTimers taskId
        = some { remainingTimeMillis :=
                   jsOrElse task.remainingTimeMillis (getTaskRemainingTime s taskId),
                 timerActive := false } ∧
     (pauseTimerApply s taskId task).timerSubKeys = s.timerSubKeys) ∧
    (JsMap.get (resetTimerApply s taskId task).activeTimers taskId
        = some { remainingTimeMillis := task.pomodoroTimeMillis.getD 0,
                 timerActive := false } ∧
     (resetTimerApply s taskId task).timerSubKeys = s.timerSubKeys) ∧
    (JsMap.get (updatePomodoroTimeApply s taskId minutes).activeTimers taskId
        = some { remainingTimeMillis := pomodoroMillis minutes,
                 timerActive := false } ∧
     (updatePomodoroTimeApply s taskId minutes).timerSubKeys = s.timerSubKeys) := by
  refine ⟨⟨?_, ?_⟩, ⟨?_, ?_⟩, ⟨?_, ?_⟩, ⟨?_, ?_⟩⟩
  · unfold startTimerApply
    simp only [hp, if_true]
    exact JsMap.get_set_self _ _ _
  · unfold startTimerApply
    simp only [hp, if_true]
  · unfold pauseTimerApply
    simp only [hp, if_true]
    exact JsMap.get_set_self _ _ _
  · unfold pauseTimerApply
    simp only [hp, if_true]
  · unfold resetTimerApply
    simp only [hp, if_true]
    exact JsMap.get_set_self _ _ _
  · unfold resetTimerApply
    simp only [hp, if_true]
  · unfold updatePomodoroTimeApply
    exact JsMap.get_set_self _ _ _
  · rfl

/-- Claim C3, witness instantiating the amended command theorem on a start
response with `pomodoroTimeMillis = 60000` and no `remainingTimeMillis`. -/
theorem timer_commands_apply_mixed_local_and_server_values_witness :
    JsMap.get (startTimerApply { activeTimers := [], timerSubKeys := [] } "t2"
        { pomodoroTimeMillis := some 60000, remainingTimeMillis := none,
          timerActive := some true }).activeTimers "t2"
      = some { remainingTimeMillis := jsOrElse none ((some (60000 : Int)).getD 0),
               timerActive := true } :=
  (timer_commands_apply_mixed_local_and_server_values
    { activeTimers := [], timerSubKeys := [] } "t2"
    { pomodoroTimeMillis := some 60000, remainingTimeMillis := none,
      timerActive := some true } 25 (by decide)).1.1

/-- Claim C4: a start, pause, or reset command whose collaborator call fails
returns the error unchanged and leaves the whole TimerService state exactly
as it was — no field is mutated on the error path. -/
theorem failed_timer_commands_leave_state_unchanged
    (s : TimerServiceState) (taskId : String) (e : String) :
    startTimerCmd s taskId (Except.error e) = (Except.error e, s) ∧
    pauseTimerCmd s taskId (Except.error e) = (Except.error e, s) ∧
    resetTimerCmd s taskId (Except.error e) = (Except.error e, s) := by
  exact ⟨rfl, rfl, rfl⟩

/-! ## Further helper lemmas on the map embedding -/

theorem JsMap.set_of_hasKey_eq_false (m : List (String × α)) (k : String) (v : α)
    (h : JsMap.hasKey m k = false) : JsMap.set m k v = m ++ [(k, v)] := by
  induction m with
  | nil => rfl
  | cons p rest ih =>
    simp only [JsMap.hasKey, Bool.or_eq_false_iff] at h
    simp [JsMap.set, h.1, ih h.2]

theorem JsMap.hasKey_set_of_ne (m : List (String × α)) (k k' : String) (v : α)
    (h : k' ≠ k) : JsMap.hasKey (JsMap.set m k v) k' = JsMap.hasKey m k' := by
  have hkk : (k == k') = false := by
    simp only [beq_eq_false_iff_ne, ne_eq]
    exact fun e => h e.symm
  induction m with
  | nil => simp [JsMap.set, JsMap.hasKey, hkk]
  | cons p rest ih =>
    by_cases hp : p.1 == k
    · have hp1 : p.1 = k := eq_of_beq hp
      simp [JsMap.set, JsMap.hasKey, hp, hp1, hkk]
    · simp [JsMap.set, JsMap.hasKey, hp, ih]

/-- Claim C5, counterexample: from a fresh connected client, subscribing
handler 1 then handler 2 to the same task's timer topic yields exactly one
wire subscription but the two returned handles are the same object, handler
2 is never attached (messages still go to handler 1), and calling
`unsubscribe` on the first handle leaves nobody receiving on the topic —
the handles are not independent and handler 2 stops (in fact never started)
receiving. -/
theorem second_subscribe_returns_same_handle_and_unsubscribe_kills_topic :
    (wsSubscribeToTaskTimer
        (wsSubscribeToTaskTimer
          { connected := true, nextSubId := 0, wireSubs := [],
            activeTimerSubscriptions := [], pendingNotificationSub := false,
            reconnectAttempts := 0 } "t1" 1).2 "t1" 2).2.wireSubs.length = 1 ∧
    (wsSubscribeToTaskTimer
        (wsSubscribeToTaskTimer
          { connected := true, nextSubId := 0, wireSubs := [],
            activeTimerSubscriptions := [], pendingNotificationSub := false,
            reconnectAttempts := 0 } "t1" 1).2 "t1" 2).1
      = (wsSubscribeToTaskTimer
          { connected := true, nextSubId := 0, wireSubs := [],
            activeTimerSubscriptions := [], pendingNotificationSub := false,
            reconnectAttempts := 0 } "t1" 1).1 ∧
    wsDeliverTimer
      (wsSubscribeToTaskTimer
        (wsSubscribeToTaskTimer
          { connected := true, nextSubId := 0, wireSubs := [],
            activeTimerSubscriptions := [], pendingNotificationSub := false,
            reconnectAttempts := 0 } "t1" 1).2 "t1" 2).2 "t1" = some 1 ∧
    wsDeliverTimer
      (wsUnsubscribeHandle
        (wsSubscribeToTaskTimer
          (wsSubscribeToTaskTimer
            { connected := true, nextSubId := 0, wireSubs := [],
              activeTimerSubscriptions := [], pendingNotificationSub := false,
              reconnectAttempts := 0 } "t1" 1).2 "t1" 2).2
        (wsSubscribeToTaskTimer
          { connected := true, nextSubId := 0, wireSubs := [],
            activeTimerSubscriptions := [], pendingNotificationSub := false,
            reconnectAttempts := 0 } "t1" 1).1) "t1" = none := by
  exact ⟨by decide, by decide, by decide, by decide⟩

/-- Claim C5 (amended): subscribing to the same task timer topic twice while
connected produces exactly one wire-level subscription, but the second call
returns the very same handle with the second handler dropped (messages keep
going to the first handler), and unsubscribing through that shared handle
tears down the wire subscription so that no handler receives messages on the
topic any more. -/
theorem single_wire_subscription_shared_handle
    (s : WsState) (taskId : String) (cb1 cb2 : Nat)
    (hconn : s.connected = true)
    (hnot : JsMap.hasKey s.activeTimerSubscriptions taskId = false)
    (htopic : JsMap.hasKey s.wireSubs (taskTimerTopic taskId) = false)
    (hfresh : ∀ p ∈ s.wireSubs, p.2.subId ≠ s.nextSubId) :
    wsDeliverTimer (wsSubscribeToTaskTimer s taskId cb1).2 taskId = some cb1 ∧
    wsSubscribeToTaskTimer (wsSubscribeToTaskTimer s taskId cb1).2 taskId cb2
      = ((wsSubscribeToTaskTimer s taskId cb1).1,
         (wsSubscribeToTaskTimer s taskId cb1).2) ∧
    wsDeliverTimer
      (wsUnsubscribeHandle (wsSubscribeToTaskTimer s taskId cb1).2
        (wsSubscribeToTaskTimer s taskId cb1).1) taskId = none := by
  have hg : ¬ (s.connected = false) := by simp [hconn]
  have hstep : wsSubscribeToTaskTimer s taskId cb1
      = (Handle.real taskId s.nextSubId,
         { s with
             nextSubId := s.nextSubId + 1,
             wireSubs := JsMap.set s.wireSubs (taskTimerTopic taskId)
               { subId := s.nextSubId, cbId := cb1 },
             activeTimerSubscriptions := JsMap.set s.activeTimerSubscriptions
               taskId (Handle.real taskId s.nextSubId) }) := by
    unfold wsSubscribeToTaskTimer
    rw [if_neg hg, if_neg (by simp [hnot])]
  refine ⟨?_, ?_, ?_⟩
  · rw [hstep]
    unfold wsDeliverTimer
    rw [JsMap.get_set_self]
    rfl
  · rw [hstep]
    unfold wsSubscribeToTaskTimer
    rw [if_neg hg, if_pos (by simp [JsMap.hasKey_set_self]),
        JsMap.get_set_self]
    rfl
  · rw [hstep]
    unfold wsUnsubscribeHandle wsDeliverTimer
    rw [JsMap.set_of_hasKey_eq_false _ _ _ htopic]
    simp only [List.filter_append]
    have h1 : (s.wireSubs.filter
        (fun p => !(p.2.subId == s.nextSubId))) = s.wireSubs := by
      apply List.filter_eq_self.mpr
      intro p hp
      simp only [Bool.not_eq_true', beq_eq_false_iff_ne, ne_eq]
      exact hfresh p hp
    have h2 : ([((taskTimerTopic taskId),
        ({ subId := s.nextSubId, cbId := cb1 } : WireSub))].filter
        (fun p => !(p.2.subId == s.nextSubId))) = [] := by
      simp
    rw [h1, h2, List.append_nil,
        JsMap.get_of_hasKey_eq_false _ _ htopic]
    rfl

/-- Claim C5, witness instantiating the shared-handle theorem on a fresh
connected client. -/
theorem single_wire_subscription_shared_handle_witness :
    wsDeliverTimer
      (wsSubscribeToTaskTimer
        { connected := true, nextSubId := 0, wireSubs := [],
          activeTimerSubscriptions := [], pendingNotificationSub := false,
          reconnectAttempts := 0 } "t9" 7).2 "t9" = some 7 :=
  (single_wire_subscription_shared_handle
    { connected := true, nextSubId := 0, wireSubs := [],
      activeTimerSubscriptions := [], pendingNotificationSub := false,
      reconnectAttempts := 0 } "t9" 7 8 rfl rfl rfl (by simp)).1

/-- Claim C6, counterexample: with the task timer topic for `t1` present in
the registry before an unexpected disconnect (close code 1006) and no
notification subscription pending, the connect handler issues no underlying
subscribe call at all — in particular none for the timer topic that was
subscribed before the disconnect. -/
theorem reconnect_does_not_restore_timer_topics :
    JsMap.hasKey
      ({ connected := true, nextSubId := 2,
         wireSubs := [(notificationTopic, { subId := 0, cbId := 0 }),
                      (taskTimerTopic "t1", { subId := 1, cbId := 1 })],
         activeTimerSubscriptions := [("t1", Handle.real "t1" 1)],
         pendingNotificationSub := false, reconnectAttempts := 0 } :
        WsState).activeTimerSubscriptions "t1" = true ∧
    (handleConnect
      (handleWebSocketClose
        { connected := true, nextSubId := 2,
          wireSubs := [(notificationTopic, { subId := 0, cbId := 0 }),
                       (taskTimerTopic "t1", { subId := 1, cbId := 1 })],
          activeTimerSubscriptions := [("t1", Handle.real "t1" 1)],
          pendingNotificationSub := false, reconnectAttempts := 0 } 1006).1).2
      = [] := by
  exact ⟨by decide, by decide⟩

/-- Claim C6 (amended): on a connected event the handler re-issues an
underlying subscribe call only for a queued pending notification
subscription; task timer topics present in the registry are never
automatically resubscribed by the connect handler (their handler registry is
left as it was, and callers such as `reconnectToActiveTimers` must
resubscribe themselves). -/
theorem handle_connect_reissues_only_pending_notification_sub (s : WsState) :
    (handleConnect s).2
      = (if s.pendingNotificationSub = true then [notificationTopic] else []) ∧
    (handleConnect s).1.activeTimerSubscriptions = s.activeTimerSubscriptions := by
  by_cases h : s.pendingNotificationSub = true
  · constructor
    · simp [handleConnect, wsSubscribeToNotifications, h]
    · simp [handleConnect, wsSubscribeToNotifications, h]
  · constructor
    · simp [handleConnect, wsSubscribeToNotifications, h]
    · simp [handleConnect, wsSubscribeToNotifications, h]

/-- Claim C7, counterexample: the first reconnect attempt after an unexpected
closure is scheduled with a 2000 ms delay, not a 1000 ms one — the attempt
counter is incremented before the delay is computed, so the schedule starts
at 2s, not 1s. -/
theorem first_reconnect_delay_is_2s_not_1s :
    attemptReconnect 0 = some (1, 2000) ∧ (2000 : Int) ≠ 1000 := by
  exact ⟨by decide, by decide⟩

/-- Claim C7 (amended): reconnect retries use delay
`min(1000 * 2^attempt, 30000)` with the attempt counter incremented first,
giving the schedule 2s, 4s, 8s, 16s, 30s (capped at 30s), for at most 5
attempts; once the cap is reached no further retry is scheduled and nothing
is surfaced — the close handler only ever emits the `connection` event, never
a terminal ConnectionExhausted event. -/
theorem reconnect_backoff_doubles_from_2s_capped_30s_no_terminal_event
    (s : WsState) (code : Nat) (n : Nat) :
    (n < 5 → attemptReconnect n = some (n + 1, min (1000 * 2 ^ (n + 1)) 30000)) ∧
    (5 ≤ n → attemptReconnect n = none) ∧
    (min (1000 * 2 ^ (n + 1)) (30000 : Int)) ≤ 30000 ∧
    attemptReconnect 0 = some (1, 2000) ∧
    attemptReconnect 1 = some (2, 4000) ∧
    attemptReconnect 2 = some (3, 8000) ∧
    attemptReconnect 3 = some (4, 16000) ∧
    attemptReconnect 4 = some (5, 30000) ∧
    attemptReconnect 5 = none ∧
    (handleWebSocketClose s code).2.1 = ["connection"] := by
  refine ⟨?_, ?_, min_le_right _ _, by decide, by decide, by decide, by decide,
    by decide, by decide, ?_⟩
  · intro h
    unfold attemptReconnect
    rw [if_neg (by omega)]
  · intro h
    unfold attemptReconnect
    rw [if_pos h]
  · unfold handleWebSocketClose
    by_cases hc : code ≠ 1000
    · rw [if_pos hc]
      cases attemptReconnect ({ s with connected := false } : WsState).reconnectAttempts with
      | none => rfl
      | some p => rfl
    · rw [if_neg hc]

/-- Claim C7, witness instantiating the backoff theorem at attempt 0. -/
theorem reconnect_backoff_doubles_witness :
    attemptReconnect 0 = some (0 + 1, min (1000 * 2 ^ (0 + 1)) 30000) :=
  (reconnect_backoff_doubles_from_2s_capped_30s_no_terminal_event
    { connected := false, nextSubId := 0, wireSubs := [],
      activeTimerSubscriptions := [], pendingNotificationSub := false,
      reconnectAttempts := 0 } 1006 0).1 (by decide)

/-- Claim C8: when the tab was hidden for 45 s (hidden at t = 1000 ms, shown
at t = 46000 ms) while the task store already holds tasks — the normal case —
the handler runs `fetchTasks()`, which short-circuits to
`reconnectToActiveTimers()` without invoking the collaborator's fetch
endpoint, contradicting the claimed (and comment-documented) full resync;
the fetch only happens when the store is empty, and a 5 s hide indeed
triggers no fetch. -/
theorem visibility_resync_skips_fetch_when_tasks_loaded :
    handleVisibilityChange (some 1000) 46000 true = ResyncAction.reconnectTimers ∧
    handleVisibilityChange (some 1000) 46000 true ≠ ResyncAction.fetchFromServer ∧
    handleVisibilityChange (some 1000) 46000 false = ResyncAction.fetchFromServer ∧
    handleVisibilityChange (some 41000) 46000 true = ResyncAction.reconnectTimers := by
  exact ⟨by decide, by decide, by decide, by decide⟩

/-- Claim C9: `unreadCount` is computed from the feed itself and equals the
count of records whose `read` field is `false` in every state, in particular
after every ingest (`handleNewNotification`), `markAsRead`, and
`markAllAsRead`; after `markAllAsRead` it is zero. -/
theorem unread_count_always_matches_unread_records
    (ns : List NotificationRec) (n : NotificationRec) (i : String) :
    unreadCount ns = countUnread ns ∧
    unreadCount (handleNewNotification ns n)
      = countUnread (handleNewNotification ns n) ∧
    unreadCount (markAsReadApply ns i) = countUnread (markAsReadApply ns i) ∧
    unreadCount (markAllAsReadApply ns) = countUnread (markAllAsReadApply ns) ∧
    unreadCount (markAllAsReadApply ns) = 0 := by
  have key : ∀ ms : List NotificationRec, unreadCount ms = countUnread ms := by
    intro ms
    unfold unreadCount countUnread
    induction ms with
    | nil => rfl
    | cons a rest ih =>
      by_cases h : a.read
      · simp [List.countP_cons, h, ih]
      · simp [List.countP_cons, h, ih]
  refine ⟨key ns, key _, key _, key _, ?_⟩
  unfold unreadCount markAllAsReadApply
  induction ns with
  | nil => rfl
  | cons a rest ih => simp [ih]

/-- Claim C10: while the STOMP client is absent or disconnected,
`subscribeToTaskTimer` hands back the dummy no-op handle without recording
any wire-level subscription and without surfacing an error; no wire
subscription for the task's topic exists then or after a later connect (the
connect handler never opens timer subscriptions), yet the timer service
caches the dummy handle, so even a later subscribe attempt for the task
returns the cached dummy instead of creating a wire subscription. -/
theorem disconnected_subscribe_yields_cached_dummy_without_wire_sub
    (a : AppState) (taskId : String) (cb cb2 : Nat)
    (hconn : a.ws.connected = false)
    (hnot : JsMap.hasKey a.tsSubs taskId = false)
    (htopic : JsMap.hasKey a.ws.wireSubs (taskTimerTopic taskId) = false)
    (hne : taskTimerTopic taskId ≠ notificationTopic) :
    (timerServiceSubscribe a taskId cb).1 = Handle.dummy ∧
    (timerServiceSubscribe a taskId cb).2.ws = a.ws ∧
    wsUnsubscribeHandle a.ws Handle.dummy = a.ws ∧
    JsMap.get (timerServiceSubscribe a taskId cb).2.tsSubs taskId
      = some Handle.dummy ∧
    JsMap.hasKey (handleConnect a.ws).1.wireSubs (taskTimerTopic taskId)
      = false ∧
    timerServiceSubscribe
        { ws := (handleConnect (timerServiceSubscribe a taskId cb).2.ws).1,
          tsSubs := (timerServiceSubscribe a taskId cb).2.tsSubs } taskId cb2
      = (Handle.dummy,
         { ws := (handleConnect (timerServiceSubscribe a taskId cb).2.ws).1,
           tsSubs := (timerServiceSubscribe a taskId cb).2.tsSubs }) := by
  have hstep : timerServiceSubscribe a taskId cb
      = (Handle.dummy,
         { ws := a.ws, tsSubs := JsMap.set a.tsSubs taskId Handle.dummy }) := by
    unfold timerServiceSubscribe wsSubscribeToTaskTimer
    rw [if_neg (by simp [hnot]), if_pos hconn]
  have hconnect : JsMap.hasKey (handleConnect a.ws).1.wireSubs
      (taskTimerTopic taskId) = false := by
    unfold handleConnect wsSubscribeToNotifications
    by_cases h : a.ws.pendingNotificationSub
    · simp only [h, if_true, if_neg]
      rw [if_neg (by simp)]
      simpa [JsMap.hasKey_set_of_ne _ _ _ _ hne] using htopic
    · simp only [h, Bool.false_eq_true, if_false]
      exact htopic
  refine ⟨?_, ?_, rfl, ?_, hconnect, ?_⟩
  · rw [hstep]
  · rw [hstep]
  · rw [hstep]
    exact JsMap.get_set_self _ _ _
  · rw [hstep]
    unfold timerServiceSubscribe
    rw [if_pos (by simp [JsMap.hasKey_set_self]), JsMap.get_set_self]
    rfl

/-- Claim C10, witness instantiating the disconnected-subscribe theorem on a
fresh disconnected client. -/
theorem disconnected_subscribe_yields_cached_dummy_without_wire_sub_witness :
    (timerServiceSubscribe
      { ws := { connected := false, nextSubId := 0, wireSubs := [],
                activeTimerSubscriptions := [], pendingNotificationSub := false,
                reconnectAttempts := 0 },
        tsSubs := [] } "t3" 5).1 = Handle.dummy :=
  (disconnected_subscribe_yields_cached_dummy_without_wire_sub
    { ws := { connected := false, nextSubId := 0, wireSubs := [],
              activeTimerSubscriptions := [], pendingNotificationSub := false,
              reconnectAttempts := 0 },
      tsSubs := [] } "t3" 5 6 rfl rfl rfl (by decide)).1
